import Mathlib

/-!
Verification development for the CODY repository (HPCG-style benchmark on Legion).

Shallow embedding of:
  * `src/legion/lgncg/explicit-spmd/ReportResults.hpp` — the YAML report writer,
    its FLOP-count, memory-bandwidth and memory-usage models, and the final
    validity verdict;
  * `src/legion/lgncg/v3/LegionMatrices.hpp` — the logical sparse matrix
    lifecycle (`allocate` / `partition` / `deallocate`), the dynamic-collective
    population, and `PopulateGlobalToLocalMap`.

C `double` values are embedded as exact rationals (`ℚ`): the claims under
scrutiny concern the formulas the code computes, not IEEE-754 rounding.
C integer types (`int`, `local_int_t`, `global_int_t`) are embedded as `Int`;
no computation below approaches the width of those machine types.
-/

namespace CODY

/-- `Int` to `ℚ` cast, the embedding of C's int-to-double conversions. -/
def qi (n : Int) : ℚ := (n : ℚ)

/-- Geometry struct (fields used by the two embedded files). -/
structure Geometry where
  size : Int
  rank : Int
  numThreads : Int
  nx : Int
  ny : Int
  nz : Int
  npx : Int
  npy : Int
  npz : Int
  ipx : Int
  ipy : Int
  ipz : Int
  stencilSize : Int
deriving DecidableEq, Repr

/-- `SparseMatrixScalars` from `LegionMatrices.hpp` (lines 59-78). -/
structure SparseMatrixScalars where
  maxNonzerosPerRow : Int
  totalNumberOfRows : Int
  totalNumberOfNonzeros : Int
  localNumberOfRows : Int
  localNumberOfColumns : Int
  localNumberOfNonzeros : Int
  numberOfExternalValues : Int
  numberOfSendNeighbors : Int
  totalToBeSent : Int
deriving DecidableEq, Repr

/-- `TestCGData` fields read by `ReportResults`. -/
structure TestCGData where
  count_fail : Int
  niters_max_no_prec : Int
  expected_niters_no_prec : Int
  niters_max_prec : Int
  expected_niters_prec : Int
deriving DecidableEq, Repr

/-- `TestSymmetryData` fields read by `ReportResults`. -/
structure TestSymmetryData where
  count_fail : Int
  depsym_spmv : ℚ
  depsym_mg : ℚ
deriving DecidableEq, Repr

/-- `TestNormsData` fields read by `ReportResults`. -/
structure TestNormsData where
  pass : Bool
  mean : ℚ
  variance : ℚ
deriving DecidableEq, Repr

/-- One level of the multigrid hierarchy, as read by `ReportResults`:
its scalars and, for non-coarsest levels, the smoother step counts held in
`mgData`. -/
structure MatLevel where
  sclrs : SparseMatrixScalars
  numberOfPresmootherSteps : Int
  numberOfPostsmootherSteps : Int
deriving DecidableEq, Repr

/-- The sparse-matrix view `ReportResults` consumes: the geometry, the finest
level (`A` itself), the chain of coarser levels reached through `Ac`, and the
four optimization flags.  The `assert(Af == 0)` at `ReportResults.hpp:267`
forces the chain length to equal `numberOfMgLevels`, so the embedding walks
the explicit chain `fine :: coarse` instead of carrying a separate level
count. -/
structure ReportMatrix where
  geom : Geometry
  fine : MatLevel
  coarse : List MatLevel
  isDotProductOptimized : Bool
  isSpmvOptimized : Bool
  isMgOptimized : Bool
  isWaxpbyOptimized : Bool
deriving DecidableEq, Repr

/-- The level chain `A, A->Ac, A->Ac->Ac, …` (finest first). -/
def ReportMatrix.chain (A : ReportMatrix) : List MatLevel := A.fine :: A.coarse

/-- Platform `sizeof` constants appearing in the report's models.  They are
compile-time constants of the C++ build (e.g. `sizeof(double) = 8`); the
embedding keeps them abstract so no platform is baked in. -/
structure CSizes where
  szDouble : ℚ
  szChar : ℚ
  szPtr : ℚ
  szGlobalInt : ℚ
  szLocalInt : ℚ
  szInt : ℚ
  szGeometry : ℚ
  szSparseMatrix : ℚ
  szArrayFloat : ℚ
  szMGData : ℚ
deriving DecidableEq, Repr

/-- All arguments of `ReportResults` (lines 93-108), plus the platform sizes,
the value returned by the external `OptimizeProblemMemoryUse(A)` (defined in
`OptimizeProblem.hpp`, outside `src/`), and the values returned by the three
`allReduce` calls on `times[4]` (the collectives themselves are external). -/
structure ReportArgs where
  A : ReportMatrix
  numberOfCgSets : Int
  refMaxIters : Int
  optMaxIters : Int
  times : Nat → ℚ
  testcg_data : TestCGData
  testsymmetry_data : TestSymmetryData
  testnorms_data : TestNormsData
  global_failure : Int
  quickPath : Bool
  sz : CSizes
  fnbytesOptimizedProblem : ℚ
  reduceMinResult : ℚ
  reduceMaxResult : ℚ
  reduceSumResult : ℚ

/-! ### FLOP count model (`ReportResults.hpp` lines 130-157) -/

/-- `double fNumberOfCgSets = numberOfCgSets` (line 132). -/
def fNumberOfCgSets (a : ReportArgs) : ℚ := qi a.numberOfCgSets

/-- `double fniters = fNumberOfCgSets * (double) optMaxIters` (line 133). -/
def fniters (a : ReportArgs) : ℚ := fNumberOfCgSets a * qi a.optMaxIters

/-- `double fnrow = Asclrs->totalNumberOfRows` (line 134). -/
def fnrow (a : ReportArgs) : ℚ := qi a.A.fine.sclrs.totalNumberOfRows

/-- `double fnnz = Asclrs->totalNumberOfNonzeros` (line 135). -/
def fnnz (a : ReportArgs) : ℚ := qi a.A.fine.sclrs.totalNumberOfNonzeros

/-- `fnops_ddot` (line 138). -/
def fnopsDdot (a : ReportArgs) : ℚ :=
  (3 * fniters a + fNumberOfCgSets a) * 2 * fnrow a

/-- `fnops_waxpby` (line 139). -/
def fnopsWaxpby (a : ReportArgs) : ℚ :=
  (3 * fniters a + fNumberOfCgSets a) * 2 * fnrow a

/-- `fnops_sparsemv` (line 140). -/
def fnopsSparsemv (a : ReportArgs) : ℚ :=
  (fniters a + fNumberOfCgSets a) * 2 * fnnz a

/-- The `fnops_precond` accumulation (lines 142-155): the `for` loop visits the
first `numberOfMgLevels - 1` levels of the chain (reading that level's `sclrs`
and `mgData` smoother steps), and the final statement adds one symmetric GS
sweep at the coarsest level. -/
def fnopsPrecondChain (fni : ℚ) : List MatLevel → ℚ
  | [] => 0
  | [lv] => fni * 4 * qi lv.sclrs.totalNumberOfNonzeros
  | lv :: lw :: rest =>
      qi lv.numberOfPresmootherSteps * fni * 4 * qi lv.sclrs.totalNumberOfNonzeros
      + fni * 2 * qi lv.sclrs.totalNumberOfNonzeros
      + qi lv.numberOfPostsmootherSteps * fni * 4 * qi lv.sclrs.totalNumberOfNonzeros
      + fnopsPrecondChain fni (lw :: rest)

/-- `fnops_precond` for the report's matrix. -/
def fnopsPrecond (a : ReportArgs) : ℚ := fnopsPrecondChain (fniters a) a.A.chain

/-- `double fnops = fnops_ddot + fnops_waxpby + fnops_sparsemv + fnops_precond`
(line 156). -/
def fnops (a : ReportArgs) : ℚ :=
  fnopsDdot a + fnopsWaxpby a + fnopsSparsemv a + fnopsPrecond a

/-- `double frefnops = fnops * refMaxIters / optMaxIters` (line 157). -/
def frefnops (a : ReportArgs) : ℚ :=
  fnops a * qi a.refMaxIters / qi a.optMaxIters

/-! ### Memory bandwidth model (lines 159-195) -/

/-- `fnreads_ddot` (line 162). -/
def fnreadsDdot (a : ReportArgs) : ℚ :=
  (3 * fniters a + fNumberOfCgSets a) * 2 * fnrow a * a.sz.szDouble

/-- `fnwrites_ddot` (line 163). -/
def fnwritesDdot (a : ReportArgs) : ℚ :=
  (3 * fniters a + fNumberOfCgSets a) * a.sz.szDouble

/-- `fnreads_waxpby` (line 164). -/
def fnreadsWaxpby (a : ReportArgs) : ℚ :=
  (3 * fniters a + fNumberOfCgSets a) * 2 * fnrow a * a.sz.szDouble

/-- `fnwrites_waxpby` (line 165). -/
def fnwritesWaxpby (a : ReportArgs) : ℚ :=
  (3 * fniters a + fNumberOfCgSets a) * fnrow a * a.sz.szDouble

/-- `fnreads_sparsemv` (line 166). -/
def fnreadsSparsemv (a : ReportArgs) : ℚ :=
  (fniters a + fNumberOfCgSets a)
    * (fnnz a * (a.sz.szDouble + a.sz.szLocalInt) + fnrow a * a.sz.szDouble)

/-- `fnwrites_sparsemv` (line 168). -/
def fnwritesSparsemv (a : ReportArgs) : ℚ :=
  (fniters a + fNumberOfCgSets a) * fnrow a * a.sz.szDouble

/-- Line 182, verbatim: the bytes charged as writes for the fine-grid residual
calculation of one intermediate level,
`fniters * fnnz_Af * sizeof(double)` — note it scales with the level's
number of NONZEROS (`fnnz_Af`), not its row count. -/
def residualWritesTerm (sz : CSizes) (fni : ℚ) (lv : MatLevel) : ℚ :=
  fni * qi lv.sclrs.totalNumberOfNonzeros * sz.szDouble

/-- The `fnreads_precond` accumulation (lines 179, 181, 183, then 190). -/
def fnreadsPrecondChain (sz : CSizes) (fni : ℚ) : List MatLevel → ℚ
  | [] => 0
  | [lv] =>
      fni * (2 * qi lv.sclrs.totalNumberOfNonzeros * (sz.szDouble + sz.szLocalInt)
             + qi lv.sclrs.totalNumberOfRows * sz.szDouble)
  | lv :: lw :: rest =>
      qi lv.numberOfPresmootherSteps * fni
        * (2 * qi lv.sclrs.totalNumberOfNonzeros * (sz.szDouble + sz.szLocalInt)
           + qi lv.sclrs.totalNumberOfRows * sz.szDouble)
      + fni * (qi lv.sclrs.totalNumberOfNonzeros * (sz.szDouble + sz.szLocalInt)
               + qi lv.sclrs.totalNumberOfRows * sz.szDouble)
      + qi lv.numberOfPostsmootherSteps * fni
        * (2 * qi lv.sclrs.totalNumberOfNonzeros * (sz.szDouble + sz.szLocalInt)
           + qi lv.sclrs.totalNumberOfRows * sz.szDouble)
      + fnreadsPrecondChain sz fni (lw :: rest)

/-- The `fnwrites_precond` accumulation (lines 180, 182, 184, then 191). -/
def fnwritesPrecondChain (sz : CSizes) (fni : ℚ) : List MatLevel → ℚ
  | [] => 0
  | [lv] => fni * qi lv.sclrs.totalNumberOfRows * sz.szDouble
  | lv :: lw :: rest =>
      qi lv.numberOfPresmootherSteps * fni * qi lv.sclrs.totalNumberOfRows * sz.szDouble
      + residualWritesTerm sz fni lv
      + qi lv.numberOfPostsmootherSteps * fni
          * qi lv.sclrs.totalNumberOfNonzeros * sz.szDouble
      + fnwritesPrecondChain sz fni (lw :: rest)

/-- `double fnreads = …` (line 192). -/
def fnreads (a : ReportArgs) : ℚ :=
  fnreadsDdot a + fnreadsWaxpby a + fnreadsSparsemv a
    + fnreadsPrecondChain a.sz (fniters a) a.A.chain

/-- `double fnwrites = …` (line 193). -/
def fnwrites (a : ReportArgs) : ℚ :=
  fnwritesDdot a + fnwritesWaxpby a + fnwritesSparsemv a
    + fnwritesPrecondChain a.sz (fniters a) a.A.chain

/-- `frefnreads` (line 194). -/
def frefnreads (a : ReportArgs) : ℚ := fnreads a * qi a.refMaxIters / qi a.optMaxIters

/-- `frefnwrites` (line 195). -/
def frefnwrites (a : ReportArgs) : ℚ := fnwrites a * qi a.refMaxIters / qi a.optMaxIters

/-! ### Memory usage model (lines 198-270) -/

/-- `numberOfNonzerosPerRow = 27.0` (line 202). -/
def numberOfNonzerosPerRow : ℚ := 27

/-- `fncol` for the finest level (line 220):
`localNumberOfColumns * size` (rank-0 estimate). -/
def fncol (a : ReportArgs) : ℚ :=
  qi a.A.fine.sclrs.localNumberOfColumns * qi a.A.geom.size

/-- The running `fnbytes` value at line 225 — the bytes of the main CG level
(lines 205-222), recorded as `fnbytesPerLevel[0]` before the optimized-problem
and coarse-level contributions are added. -/
def fnbytesBase (a : ReportArgs) : ℚ :=
  a.sz.szGeometry
  + a.sz.szDouble * fNumberOfCgSets a
  + fnrow a * a.sz.szChar
  + fnrow a * a.sz.szPtr
  + fnrow a * a.sz.szPtr
  + fnrow a * a.sz.szPtr
  + fnrow a * a.sz.szPtr
  + fnrow a * numberOfNonzerosPerRow * a.sz.szLocalInt
  + fnrow a * numberOfNonzerosPerRow * a.sz.szDouble
  + fnrow a * numberOfNonzerosPerRow * a.sz.szGlobalInt
  + fnrow a * (3 * a.sz.szDouble)
  + fnrow a * (2 * a.sz.szDouble)
  + fncol a * (2 * a.sz.szDouble)

/-- `fnbytes_Af` for one coarse level (lines 236-261). -/
def coarseLevelBytes (sz : CSizes) (size : ℚ) (lv : MatLevel) : ℚ :=
  qi lv.sclrs.totalNumberOfRows * sz.szLocalInt
  + qi lv.sclrs.totalNumberOfRows * sz.szDouble
  + 2 * (qi lv.sclrs.localNumberOfColumns * size) * sz.szDouble
  + (sz.szGeometry + sz.szSparseMatrix + 3 * sz.szArrayFloat + sz.szMGData)
  + qi lv.sclrs.totalNumberOfRows * sz.szChar
  + qi lv.sclrs.totalNumberOfRows * sz.szPtr
  + qi lv.sclrs.totalNumberOfRows * sz.szPtr
  + qi lv.sclrs.totalNumberOfRows * sz.szPtr
  + qi lv.sclrs.totalNumberOfRows * sz.szPtr
  + qi lv.sclrs.totalNumberOfRows * numberOfNonzerosPerRow * sz.szLocalInt
  + qi lv.sclrs.totalNumberOfRows * numberOfNonzerosPerRow * sz.szDouble
  + qi lv.sclrs.totalNumberOfRows * numberOfNonzerosPerRow * sz.szGlobalInt
  + sz.szDouble * qi lv.sclrs.totalToBeSent
  + sz.szLocalInt * qi lv.sclrs.totalToBeSent
  + sz.szInt * qi lv.sclrs.numberOfSendNeighbors
  + sz.szLocalInt * qi lv.sclrs.numberOfSendNeighbors

/-- `fnbytesPerLevel` (lines 224-225 and 262): level 0 holds the main-CG
bytes; each coarse level holds its own `fnbytes_Af`. -/
def fnbytesPerLevel (a : ReportArgs) : List ℚ :=
  fnbytesBase a :: a.A.coarse.map (coarseLevelBytes a.sz (qi a.A.geom.size))

/-- The final `fnbytes` (lines 229 and 263): base bytes, plus the
benchmarker-provided `OptimizeProblemMemoryUse(A)`, plus the running sum of
coarse-level bytes. -/
def fnbytesTotal (a : ReportArgs) : ℚ :=
  fnbytesBase a + a.fnbytesOptimizedProblem
    + (a.A.coarse.map (coarseLevelBytes a.sz (qi a.A.geom.size))).sum

/-- `fnbytesPerEquation = fnbytes / fnrow` (line 270). -/
def fnbytesPerEquation (a : ReportArgs) : ℚ := fnbytesTotal a / fnrow a

/-! ### YAML document model (`YAML_Doc` / `YAML_Element`)

A document element has a key, a scalar value and a list of children;
`doc.add(k, v)` appends a top-level element, `doc.get(k)->add(k2, v2)` appends
a child to the (unique) element named `k`.  Since all keys added at any single
nesting site of `ReportResults` are pairwise distinct, the final document is
exactly the tree written out below, in source order. -/

/-- A YAML scalar: string, int or double. -/
inductive YVal where
  | str : String → YVal
  | int : Int → YVal
  | num : ℚ → YVal
deriving DecidableEq, Repr, BEq

/-- A YAML element: key, scalar value, children. -/
inductive YElem where
  | mk : String → YVal → List YElem → YElem

/-- Key of an element. -/
def YElem.key : YElem → String
  | .mk k _ _ => k

/-- Scalar value of an element. -/
def YElem.val : YElem → YVal
  | .mk _ v _ => v

/-- Children of an element. -/
def YElem.kids : YElem → List YElem
  | .mk _ _ c => c

/-- Find the element with the given key (the model of `doc.get(k)`). -/
def lookupElem (es : List YElem) (k : String) : Option YElem :=
  es.find? (fun e => e.key == k)

/-! ### The report document (lines 273-471) -/

/-- `double minOfficialTime = 1800` (line 112). -/
def minOfficialTime : ℚ := 1800

/-- `totalGflops` (line 416). -/
def totalGflops (a : ReportArgs) : ℚ :=
  frefnops a / (a.times 0 + fNumberOfCgSets a * (a.times 7 / 10 + a.times 9 / 10))
    / 1000000000

/-- `totalGflops24` (line 417). -/
def totalGflops24 (a : ReportArgs) : ℚ :=
  frefnops a / (a.times 0 + fNumberOfCgSets a * a.times 7 / 10) / 1000000000

/-- `bool isValidRun = (testcg_data.count_fail == 0) &&
(testsymmetry_data.count_fail == 0) && (testnorms_data.pass) &&
(!global_failure)` (line 432).  `global_failure` is a C `int`; `!g` is true
exactly when `g == 0`. -/
def isValidRun (a : ReportArgs) : Bool :=
  (a.testcg_data.count_fail == 0) && (a.testsymmetry_data.count_fail == 0)
    && a.testnorms_data.pass && (a.global_failure == 0)

/-- Children of `Multigrid Information -> Coarse Grids` (lines 309-316):
iteration `i` reads equations/nonzeros from `Af->Ac` (the next level) and the
smoother steps from `Af->mgData` (the current level). -/
def coarseGridKids : Nat → List MatLevel → List YElem
  | _, [] => []
  | _, [_] => []
  | i, lv :: lw :: rest =>
      [YElem.mk "Grid Level" (.int i) [],
       YElem.mk "Number of Equations" (.int lw.sclrs.totalNumberOfRows) [],
       YElem.mk "Number of Nonzero Terms" (.int lw.sclrs.totalNumberOfNonzeros) [],
       YElem.mk "Number of Presmoother Steps" (.int lv.numberOfPresmootherSteps) [],
       YElem.mk "Number of Postsmoother Steps" (.int lv.numberOfPostsmootherSteps) []]
      ++ coarseGridKids (i + 1) (lw :: rest)

/-- Children of `Memory Use Information -> Coarse Grids` (lines 328-331). -/
def memUseCoarseKids : Nat → List ℚ → List YElem
  | _, [] => []
  | i, b :: rest =>
      [YElem.mk "Grid Level" (.int i) [],
       YElem.mk "Memory used" (.num (b / 1000000000)) []]
      ++ memUseCoarseKids (i + 1) rest

/-- Children of the `Floating Point Operations Summary` section
(lines 393-399). -/
def floatingPointOpsKids (a : ReportArgs) : List YElem :=
  [YElem.mk "Raw DDOT" (.num (fnopsDdot a)) [],
   YElem.mk "Raw WAXPBY" (.num (fnopsWaxpby a)) [],
   YElem.mk "Raw SpMV" (.num (fnopsSparsemv a)) [],
   YElem.mk "Raw MG" (.num (fnopsPrecond a)) [],
   YElem.mk "Total" (.num (fnops a)) [],
   YElem.mk "Total with convergence overhead" (.num (frefnops a)) []]

/-- Children of the `GFLOP/s Summary` section (lines 408-418). -/
def gflopsSummaryKids (a : ReportArgs) : List YElem :=
  [YElem.mk "Raw DDOT" (.num (fnopsDdot a / a.times 1 / 1000000000)) [],
   YElem.mk "Raw WAXPBY" (.num (fnopsWaxpby a / a.times 2 / 1000000000)) [],
   YElem.mk "Raw SpMV" (.num (fnopsSparsemv a / a.times 3 / 1000000000)) [],
   YElem.mk "Raw MG" (.num (fnopsPrecond a / a.times 5 / 1000000000)) [],
   YElem.mk "Raw Total" (.num (fnops a / a.times 0 / 1000000000)) [],
   YElem.mk "Total with convergence overhead" (.num (frefnops a / a.times 0 / 1000000000)) [],
   YElem.mk "Total with convergence and optimization phase overhead"
     (.num (totalGflops a)) []]

/-- Children of the `__________ Final Summary __________` section
(lines 432-471). -/
def finalSummaryKids (a : ReportArgs) : List YElem :=
  if isValidRun a then
    [YElem.mk "HPCG result is VALID with a GFLOP/s rating of" (.num (totalGflops a)) [],
     YElem.mk "    HPCG 2.4 Rating (for historical value) is" (.num (totalGflops24 a)) []]
    ++ (if !a.A.isDotProductOptimized then
          [YElem.mk "Reference version of ComputeDotProduct used"
            (.str "Performance results are most likely suboptimal") []]
        else [])
    ++ (if !a.A.isSpmvOptimized then
          [YElem.mk "Reference version of ComputeSPMV used"
            (.str "Performance results are most likely suboptimal") []]
        else [])
    ++ (if !a.A.isMgOptimized then
          (if a.A.geom.numThreads > 1 then
            [YElem.mk "Reference version of ComputeMG used and number of threads greater than 1"
              (.str "Performance results are severely suboptimal") []]
          else
            [YElem.mk "Reference version of ComputeMG used"
              (.str "Performance results are most likely suboptimal") []])
        else [])
    ++ (if !a.A.isWaxpbyOptimized then
          [YElem.mk "Reference version of ComputeWAXPBY used"
            (.str "Performance results are most likely suboptimal") []]
        else [])
    ++ (if a.times 0 ≥ minOfficialTime then
          [YElem.mk "Please upload results from the YAML file contents to"
            (.str "http://hpcg-benchmark.org") []]
        else
          YElem.mk "Results are valid but execution time (sec) is" (.num (a.times 0)) []
          :: (if a.quickPath then
                [YElem.mk "     You have selected the QuickPath option"
                  (.str "Results are official for legacy installed systems with confirmation from the HPCG Benchmark leaders.") [],
                 YElem.mk "     After confirmation please upload results from the YAML file contents to"
                  (.str "http://hpcg-benchmark.org") []]
              else
                [YElem.mk "     Official results execution time (sec) must be at least"
                  (.num minOfficialTime) []]))
  else
    [YElem.mk "HPCG result is" (.str "INVALID.") [],
     YElem.mk "Please review the YAML file contents"
       (.str "You may NOT submit these results for consideration.") []]

/-- The top-level elements of the YAML document, in the exact order
`ReportResults` adds them (lines 275-471). -/
def buildDoc (a : ReportArgs) : List YElem :=
  [YElem.mk "Release date" (.str "November 11, 2015") [],
   YElem.mk "Machine Summary" (.str "")
     [YElem.mk "Distributed Processes" (.int a.A.geom.size) [],
      YElem.mk "Threads per processes" (.int a.A.geom.numThreads) []],
   YElem.mk "Global Problem Dimensions" (.str "")
     [YElem.mk "Global nx" (.int (a.A.geom.npx * a.A.geom.nx)) [],
      YElem.mk "Global ny" (.int (a.A.geom.npy * a.A.geom.ny)) [],
      YElem.mk "Global nz" (.int (a.A.geom.npz * a.A.geom.nz)) []],
   YElem.mk "Processor Dimensions" (.str "")
     [YElem.mk "npx" (.int a.A.geom.npx) [],
      YElem.mk "npy" (.int a.A.geom.npy) [],
      YElem.mk "npz" (.int a.A.geom.npz) []],
   YElem.mk "Local Domain Dimensions" (.str "")
     [YElem.mk "nx" (.int a.A.geom.nx) [],
      YElem.mk "ny" (.int a.A.geom.ny) [],
      YElem.mk "nz" (.int a.A.geom.nz) []],
   YElem.mk "########## Problem Summary  ##########" (.str "") [],
   YElem.mk "Setup Information" (.str "")
     [YElem.mk "Setup Time" (.num (a.times 9)) []],
   YElem.mk "Linear System Information" (.str "")
     [YElem.mk "Number of Equations" (.int a.A.fine.sclrs.totalNumberOfRows) [],
      YElem.mk "Number of Nonzero Terms" (.int a.A.fine.sclrs.totalNumberOfNonzeros) []],
   YElem.mk "Multigrid Information" (.str "")
     [YElem.mk "Number of coarse grid levels" (.int (a.A.coarse.length : Int)) [],
      YElem.mk "Coarse Grids" (.str "") (coarseGridKids 1 a.A.chain)],
   YElem.mk "########## Memory Use Summary  ##########" (.str "") [],
   YElem.mk "Memory Use Information" (.str "")
     [YElem.mk "Total memory used for data (Gbytes)" (.num (fnbytesTotal a / 1000000000)) [],
      YElem.mk "Memory used for OptimizeProblem data (Gbytes)"
        (.num (a.fnbytesOptimizedProblem / 1000000000)) [],
      YElem.mk "Bytes per equation (Total memory / Number of Equations)"
        (.num (fnbytesPerEquation a)) [],
      YElem.mk "Memory used for linear system and CG (Gbytes)"
        (.num (fnbytesBase a / 1000000000)) [],
      YElem.mk "Coarse Grids" (.str "")
        (memUseCoarseKids 1 (a.A.coarse.map (coarseLevelBytes a.sz (qi a.A.geom.size))))],
   YElem.mk "########## V&V Testing Summary  ##########" (.str "") [],
   YElem.mk "Spectral Convergence Tests" (.str "")
     [YElem.mk "Result"
        (.str (if a.testcg_data.count_fail == 0 then "PASSED" else "FAILED")) [],
      YElem.mk "Unpreconditioned" (.str "")
        [YElem.mk "Maximum iteration count" (.int a.testcg_data.niters_max_no_prec) [],
         YElem.mk "Expected iteration count" (.int a.testcg_data.expected_niters_no_prec) []],
      YElem.mk "Preconditioned" (.str "")
        [YElem.mk "Maximum iteration count" (.int a.testcg_data.niters_max_prec) [],
         YElem.mk "Expected iteration count" (.int a.testcg_data.expected_niters_prec) []]],
   YElem.mk "Departure from Symmetry |x\x27Ay-y\x27Ax|/(2*||x||*||A||*||y||)/epsilon" (.str "")
     [YElem.mk "Result"
        (.str (if a.testsymmetry_data.count_fail == 0 then "PASSED" else "FAILED")) [],
      YElem.mk "Departure for SpMV" (.num a.testsymmetry_data.depsym_spmv) [],
      YElem.mk "Departure for MG" (.num a.testsymmetry_data.depsym_mg) []],
   YElem.mk "########## Iterations Summary  ##########" (.str "") [],
   YElem.mk "Iteration Count Information" (.str "")
     [YElem.mk "Result" (.str (if a.global_failure == 0 then "PASSED" else "FAILED")) [],
      YElem.mk "Reference CG iterations per set" (.int a.refMaxIters) [],
      YElem.mk "Optimized CG iterations per set" (.int a.optMaxIters) [],
      YElem.mk "Total number of reference iterations"
        (.int (a.refMaxIters * a.numberOfCgSets)) [],
      YElem.mk "Total number of optimized iterations"
        (.int (a.optMaxIters * a.numberOfCgSets)) []],
   YElem.mk "########## Reproducibility Summary  ##########" (.str "") [],
   YElem.mk "Reproducibility Information" (.str "")
     [YElem.mk "Result" (.str (if a.testnorms_data.pass then "PASSED" else "FAILED")) [],
      YElem.mk "Scaled residual mean" (.num a.testnorms_data.mean) [],
      YElem.mk "Scaled residual variance" (.num a.testnorms_data.variance) []],
   YElem.mk "########## Performance Summary (times in sec) ##########" (.str "") [],
   YElem.mk "Benchmark Time Summary" (.str "")
     [YElem.mk "Optimization phase" (.num (a.times 7)) [],
      YElem.mk "DDOT" (.num (a.times 1)) [],
      YElem.mk "WAXPBY" (.num (a.times 2)) [],
      YElem.mk "SpMV" (.num (a.times 3)) [],
      YElem.mk "MG" (.num (a.times 5)) [],
      YElem.mk "Total" (.num (a.times 0)) []],
   YElem.mk "Floating Point Operations Summary" (.str "") (floatingPointOpsKids a),
   YElem.mk "GB/s Summary" (.str "")
     [YElem.mk "Raw Read B/W" (.num (fnreads a / a.times 0 / 1000000000)) [],
      YElem.mk "Raw Write B/W" (.num (fnwrites a / a.times 0 / 1000000000)) [],
      YElem.mk "Raw Total B/W" (.num ((fnreads a + fnwrites a) / a.times 0 / 1000000000)) [],
      YElem.mk "Total with convergence and optimization phase overhead"
        (.num ((frefnreads a + frefnwrites a)
          / (a.times 0 + fNumberOfCgSets a * (a.times 7 / 10 + a.times 9 / 10))
          / 1000000000)) []],
   YElem.mk "GFLOP/s Summary" (.str "") (gflopsSummaryKids a),
   YElem.mk "User Optimization Overheads" (.str "")
     [YElem.mk "Optimization phase time (sec)" (.num (a.times 7)) [],
      YElem.mk "Optimization phase time vs reference SpMV+MG time"
        (.num (a.times 7 / a.times 8)) []],
   YElem.mk "DDOT Timing Variations" (.str "")
     [YElem.mk "Min DDOT MPI_Allreduce time" (.num a.reduceMinResult) [],
      YElem.mk "Max DDOT MPI_Allreduce time" (.num a.reduceMaxResult) [],
      YElem.mk "Avg DDOT MPI_Allreduce time"
        (.num (a.reduceSumResult / qi a.A.geom.size)) []],
   YElem.mk "__________ Final Summary __________" (.str "") (finalSummaryKids a)]

/-- The whole document: `YAML_Doc doc("HPCG-Benchmark", "3.0")` (line 274)
plus everything added to it. -/
structure YDoc where
  docName : String
  version : String
  elems : List YElem

/-- The document `ReportResults` builds on rank 0. -/
def reportDoc (a : ReportArgs) : YDoc :=
  { docName := "HPCG-Benchmark", version := "3.0", elems := buildDoc a }

/-- The reduction operators of the three `allReduce` calls
(lines 119-121). -/
inductive ReduceOp where
  | minOp : ReduceOp
  | maxOp : ReduceOp
  | sumOp : ReduceOp
deriving DecidableEq, Repr

/-- Observable outcome of one `ReportResults` invocation: the collective
reductions it participates in (with their operand), and the document it
builds — `some` only on rank 0 (line 126 guard). -/
structure ReportOutput where
  reductions : List (ReduceOp × ℚ)
  emitted : Option YDoc

/-- `ReportResults` (lines 93-479): every rank contributes `times[4]` to the
min/max/sum collectives; only the rank whose geometry has `rank == 0` builds
(and, under `HPCG_DEBUG`, writes) the YAML document. -/
def ReportResults (a : ReportArgs) : ReportOutput :=
  { reductions := [(.minOp, a.times 4), (.maxOp, a.times 4), (.sumOp, a.times 4)],
    emitted := if a.A.geom.rank == 0 then some (reportDoc a) else none }

/-! ## `LegionMatrices.hpp` — `LogicalSparseMatrix` lifecycle -/

/-- The fourteen logical arrays of `LogicalSparseMatrix`
(`LegionMatrices.hpp` lines 122-155). -/
inductive MatrixArrayName where
  | geoms | sclrs | nonzerosInRow | mtxIndG | mtxIndL | matrixValues
  | matrixDiagonal | localToGlobalMap | dcAllreduceSum | neighbors
  | sendLength | synchronizers | pullBEs | pullBuffer
deriving DecidableEq, Repr

/-- The order in which `LogicalSparseMatrix::allocate` (lines 192-232)
allocates its logical arrays. -/
def allocateSequence : List MatrixArrayName :=
  [.geoms, .sclrs, .nonzerosInRow, .mtxIndG, .mtxIndL, .matrixValues,
   .matrixDiagonal, .localToGlobalMap, .dcAllreduceSum, .neighbors,
   .sendLength, .synchronizers, .pullBEs, .pullBuffer]

/-- The sequence of `deallocate` calls issued by
`LogicalSparseMatrix::deallocate` (lines 269-291), verbatim: note that the
final call in the `NO_ACCESS` block (line 290) is `pullBEs.deallocate` — a
second release of `pullBEs` — and `pullBuffer` is never released. -/
def deallocateSequence : List MatrixArrayName :=
  [.geoms, .sclrs, .mtxIndG, .mtxIndL, .nonzerosInRow, .matrixValues,
   .matrixDiagonal, .localToGlobalMap, .dcAllreduceSum, .neighbors,
   .sendLength, .synchronizers, .pullBEs, .pullBEs]

/-- A Legion dynamic collective handle: creation id plus its number of
arrivals (`create_dynamic_collective`, lines 304-310). -/
structure DynCollective where
  id : Nat
  nArrivals : Nat
deriving DecidableEq, Repr

/-- Modelled from the spec: `LogicalArray` lives in `LegionArrays.hpp`, which
is not under `src/`.  Spec §4.1: a logical array of known length supports
`partition(nParts)` "producing `nParts` equal-sized disjoint subregions". -/
structure LogicalArrayM where
  len : Nat
  subregions : List (Nat × Nat)
deriving DecidableEq, Repr

/-- Modelled from the spec: `LogicalArray::partition(nParts)` replaces the
subregions by `nParts` equal-sized disjoint base/extent pairs (§4.1). -/
def LogicalArrayM.partition (nParts : Nat) (arr : LogicalArrayM) : LogicalArrayM :=
  { arr with
    subregions := (List.range nParts).map (fun i => (i * (arr.len / nParts), arr.len / nParts)) }

/-- State of a `LogicalSparseMatrix` relevant to `partition`: the fourteen
logical arrays, the data stored in the `dcAllreduceSum` region, and the log of
dynamic collectives created through the runtime. -/
structure LSMState where
  geoms : LogicalArrayM
  sclrs : LogicalArrayM
  nonzerosInRow : LogicalArrayM
  mtxIndG : LogicalArrayM
  mtxIndL : LogicalArrayM
  matrixValues : LogicalArrayM
  matrixDiagonal : LogicalArrayM
  localToGlobalMap : LogicalArrayM
  dcAllreduceSum : LogicalArrayM
  neighbors : LogicalArrayM
  sendLength : LogicalArrayM
  synchronizers : LogicalArrayM
  pullBEs : LogicalArrayM
  pullBuffer : LogicalArrayM
  dcContents : List DynCollective
  createdCollectives : List DynCollective
deriving DecidableEq, Repr

/-- `mPopulateDynamicCollectives(nArrivals, …)` (lines 294-318): create ONE
dynamic collective with `nArrivals` arrivals and replicate the same handle
into every one of the `nArrivals` entries of the mapped `dcAllreduceSum`
region. -/
def mPopulateDynamicCollectives (nArrivals : Nat) (st : LSMState) : LSMState :=
  let dc : DynCollective := { id := st.createdCollectives.length, nArrivals := nArrivals }
  { st with
    createdCollectives := st.createdCollectives ++ [dc],
    dcContents := (List.range nArrivals).map (fun _ => dc) }

/-- `LogicalSparseMatrix::partition(nParts, …)` (lines 237-264): partition all
fourteen arrays with the same `nParts`, then populate the dynamic
collectives. -/
def LSMState.partition (nParts : Nat) (st : LSMState) : LSMState :=
  let st1 : LSMState :=
    { st with
      geoms := st.geoms.partition nParts,
      sclrs := st.sclrs.partition nParts,
      nonzerosInRow := st.nonzerosInRow.partition nParts,
      mtxIndG := st.mtxIndG.partition nParts,
      mtxIndL := st.mtxIndL.partition nParts,
      matrixValues := st.matrixValues.partition nParts,
      matrixDiagonal := st.matrixDiagonal.partition nParts,
      localToGlobalMap := st.localToGlobalMap.partition nParts,
      dcAllreduceSum := st.dcAllreduceSum.partition nParts,
      neighbors := st.neighbors.partition nParts,
      sendLength := st.sendLength.partition nParts,
      synchronizers := st.synchronizers.partition nParts,
      pullBEs := st.pullBEs.partition nParts,
      pullBuffer := st.pullBuffer.partition nParts }
  mPopulateDynamicCollectives nParts st1

/-- The fourteen logical arrays of a state, in declaration order (the list
`mPopulateRegionList` builds, plus the `NO_ACCESS` `pullBuffer`). -/
def LSMState.allArrays (st : LSMState) : List LogicalArrayM :=
  [st.geoms, st.sclrs, st.nonzerosInRow, st.mtxIndG, st.mtxIndL,
   st.matrixValues, st.matrixDiagonal, st.localToGlobalMap, st.dcAllreduceSum,
   st.neighbors, st.sendLength, st.synchronizers, st.pullBEs, st.pullBuffer]

/-! ## `PopulateGlobalToLocalMap` (`LegionMatrices.hpp` lines 503-537) -/

/-- `currentGlobalRow = giz*gnx*gny + giy*gnx + gix` with
`giz = ipz*nz+iz`, `giy = ipy*ny+iy`, `gix = ipx*nx+ix`,
`gnx = nx*npx`, `gny = ny*npy` (lines 520-532). -/
def globalRow (g : Geometry) (ix iy iz : Nat) : Int :=
  (g.ipz * g.nz + (iz : Int)) * (g.nx * g.npx) * (g.ny * g.npy)
    + (g.ipy * g.ny + (iy : Int)) * (g.nx * g.npx)
    + (g.ipx * g.nx + (ix : Int))

/-- `currentLocalRow = iz*nx*ny + iy*nx + ix` (line 531). -/
def localRow (g : Geometry) (ix iy iz : Nat) : Int :=
  (iz : Int) * g.nx * g.ny + (iy : Int) * g.nx + (ix : Int)

/-- The (global,local) pairs inserted by the triple loop of
`PopulateGlobalToLocalMap` (lines 525-536), in insertion order: `iz` outer,
`iy` middle, `ix` inner.  The `std::map` it populates is keyed by the global
row, so—its keys being pairwise distinct (proved below)—its graph is exactly
this list. -/
def g2lEntries (g : Geometry) : List (Int × Int) :=
  (List.range g.nz.toNat).flatMap (fun iz =>
    (List.range g.ny.toNat).flatMap (fun iy =>
      (List.range g.nx.toNat).map (fun ix =>
        (globalRow g ix iy iz, localRow g ix iy iz))))

/-! ### Concrete example inputs used by witness theorems -/

/-- A 2x2x2 process grid geometry with a 2x2x2 local block, rank 0 at
coordinates (1,1,1). -/
def gEx : Geometry :=
  { size := 8, rank := 0, numThreads := 1, nx := 2, ny := 2, nz := 2,
    npx := 2, npy := 2, npz := 2, ipx := 1, ipy := 1, ipz := 1,
    stencilSize := 27 }

/-- Example scalars. -/
def sclrsEx : SparseMatrixScalars :=
  { maxNonzerosPerRow := 27, totalNumberOfRows := 8, totalNumberOfNonzeros := 100,
    localNumberOfRows := 8, localNumberOfColumns := 8, localNumberOfNonzeros := 100,
    numberOfExternalValues := 0, numberOfSendNeighbors := 0, totalToBeSent := 0 }

/-- Example level. -/
def lvEx : MatLevel :=
  { sclrs := sclrsEx, numberOfPresmootherSteps := 1, numberOfPostsmootherSteps := 1 }

/-- Example platform sizes (an LP64 build). -/
def szEx : CSizes :=
  { szDouble := 8, szChar := 1, szPtr := 8, szGlobalInt := 8, szLocalInt := 4,
    szInt := 4, szGeometry := 120, szSparseMatrix := 200, szArrayFloat := 24,
    szMGData := 64 }

/-- Example report arguments: a passing quick-path run with a short total
time. -/
def argsEx : ReportArgs :=
  { A := { geom := gEx, fine := lvEx, coarse := [lvEx],
           isDotProductOptimized := true, isSpmvOptimized := true,
           isMgOptimized := true, isWaxpbyOptimized := true },
    numberOfCgSets := 1, refMaxIters := 50, optMaxIters := 50,
    times := fun _ => 1,
    testcg_data := { count_fail := 0, niters_max_no_prec := 11,
                     expected_niters_no_prec := 12, niters_max_prec := 2,
                     expected_niters_prec := 2 },
    testsymmetry_data := { count_fail := 0, depsym_spmv := 0, depsym_mg := 0 },
    testnorms_data := { pass := true, mean := 1, variance := 0 },
    global_failure := 0, quickPath := true, sz := szEx,
    fnbytesOptimizedProblem := 0,
    reduceMinResult := 0, reduceMaxResult := 0, reduceSumResult := 0 }

/-! # Theorems -/

/-! ## Helper lemmas -/

/-- After `partition(nParts)`, a logical array has `nParts` subregions, all of
the same extent. -/
theorem LogicalArrayM.partition_subregions (nParts : Nat) (arr : LogicalArrayM) :
    (arr.partition nParts).subregions.length = nParts
  ∧ ∀ s ∈ (arr.partition nParts).subregions, s.2 = arr.len / nParts := by
  constructor
  · simp [LogicalArrayM.partition]
  · intro s hs
    simp only [LogicalArrayM.partition, List.mem_map, List.mem_range] at hs
    obtain ⟨i, _, rfl⟩ := hs
    rfl

/-! ## C6 — `deallocate` versus `allocate` -/

/-- C6: the claim "each of the fourteen logical arrays allocated by `allocate`
is deallocated exactly once, in the reverse of allocation order" fails on the
code: `deallocate` (lines 269-291) releases `pullBEs` twice (lines 286 and
290), never releases `pullBuffer`, and proceeds in (near-)allocation order,
not reverse order.  This also contradicts the function's own documentation,
"Cleans up and returns all allocated resources". -/
theorem C6_deallocate_mismatch :
    deallocateSequence.count .pullBuffer = 0
  ∧ deallocateSequence.count .pullBEs = 2
  ∧ deallocateSequence ≠ allocateSequence.reverse := by decide

/-! ## C7 — `partition` and the dynamic collective -/

/-- C7: `LogicalSparseMatrix::partition(nParts)` creates exactly one dynamic
collective, with `nParts` arrivals; the identical handle is written into every
one of the `nParts` entries of the `dcAllreduceSum` array; and all fourteen
arrays are partitioned into the same `nParts` equal parts. -/
theorem C7_partition_one_collective (st : LSMState) (nParts : Nat) :
    (LSMState.partition nParts st).createdCollectives
      = st.createdCollectives
        ++ [{ id := st.createdCollectives.length, nArrivals := nParts }]
  ∧ (LSMState.partition nParts st).dcContents
      = List.replicate nParts { id := st.createdCollectives.length, nArrivals := nParts }
  ∧ ∀ arr ∈ (LSMState.partition nParts st).allArrays,
      arr.subregions.length = nParts ∧ ∀ s ∈ arr.subregions, s.2 = arr.len / nParts := by
  refine ⟨rfl, ?_, ?_⟩
  · show (List.range nParts).map _ = _
    rw [List.map_const', List.length_range]
  · intro arr harr
    simp only [LSMState.partition, mPopulateDynamicCollectives, LSMState.allArrays,
      List.mem_cons, List.not_mem_nil, or_false] at harr
    rcases harr with rfl | rfl | rfl | rfl | rfl | rfl | rfl | rfl | rfl | rfl | rfl
      | rfl | rfl | rfl <;>
      exact LogicalArrayM.partition_subregions nParts _

/-! ## C8 — residual-step write bytes in the bandwidth model -/

/-- C8: in the memory-bandwidth model, the bytes charged as writes for the
fine-grid residual calculation of every intermediate multigrid level equal
`fniters * fnnz_Af * sizeof(double)` — proportional to that level's nonzero
count and independent of its row count — and this is the term the code's
`fnwrites_precond` accumulation uses verbatim. -/
theorem C8_residual_write_bytes (sz : CSizes) (fni : ℚ) (lv lw : MatLevel)
    (rest : List MatLevel) :
    fnwritesPrecondChain sz fni (lv :: lw :: rest)
      = qi lv.numberOfPresmootherSteps * fni * qi lv.sclrs.totalNumberOfRows * sz.szDouble
        + residualWritesTerm sz fni lv
        + qi lv.numberOfPostsmootherSteps * fni * qi lv.sclrs.totalNumberOfNonzeros
            * sz.szDouble
        + fnwritesPrecondChain sz fni (lw :: rest)
  ∧ residualWritesTerm sz fni lv
      = fni * qi lv.sclrs.totalNumberOfNonzeros * sz.szDouble
  ∧ ∀ nrow : Int,
      residualWritesTerm sz fni
        { lv with sclrs := { lv.sclrs with totalNumberOfRows := nrow } }
        = residualWritesTerm sz fni lv :=
  ⟨rfl, rfl, fun _ => rfl⟩

/-! ## C10 — only rank 0 builds the report -/

/-- C10: every rank participates in exactly the three collective reductions
of `times[4]` (min, max, sum); the YAML document is constructed only when
`geom->rank == 0`, and on every other rank nothing is emitted. -/
theorem C10_rank0_builds_report (a : ReportArgs) :
    (ReportResults a).reductions
      = [(.minOp, a.times 4), (.maxOp, a.times 4), (.sumOp, a.times 4)]
  ∧ ((ReportResults a).emitted = none ↔ a.A.geom.rank ≠ 0)
  ∧ ((ReportResults a).emitted = some (reportDoc a) ↔ a.A.geom.rank = 0) := by
  refine ⟨rfl, ?_, ?_⟩ <;> by_cases h : a.A.geom.rank = 0 <;> simp [ReportResults, h]

/-! ## C3 — raw operation counts -/

/-- C3: the values written as `Raw DDOT`, `Raw WAXPBY` and `Raw SpMV` in the
Floating Point Operations Summary satisfy
`ops_ddot = ops_waxpby = (3*niters + nCgSets)*2*nrow` and
`ops_spmv = (niters + nCgSets)*2*nnz`, with
`niters = nCgSets * optMaxIters`, `nrow = totalNumberOfRows` and
`nnz = totalNumberOfNonzeros`. -/
theorem C3_raw_operation_counts (a : ReportArgs) :
    lookupElem (floatingPointOpsKids a) "Raw DDOT"
      = some (YElem.mk "Raw DDOT"
          (.num ((3 * (qi a.numberOfCgSets * qi a.optMaxIters) + qi a.numberOfCgSets)
                 * 2 * qi a.A.fine.sclrs.totalNumberOfRows)) [])
  ∧ lookupElem (floatingPointOpsKids a) "Raw WAXPBY"
      = some (YElem.mk "Raw WAXPBY"
          (.num ((3 * (qi a.numberOfCgSets * qi a.optMaxIters) + qi a.numberOfCgSets)
                 * 2 * qi a.A.fine.sclrs.totalNumberOfRows)) [])
  ∧ lookupElem (floatingPointOpsKids a) "Raw SpMV"
      = some (YElem.mk "Raw SpMV"
          (.num ((qi a.numberOfCgSets * qi a.optMaxIters + qi a.numberOfCgSets)
                 * 2 * qi a.A.fine.sclrs.totalNumberOfNonzeros)) []) :=
  ⟨rfl, rfl, rfl⟩

/-! ## C4 — top-level section order -/

/-- C4: the top-level YAML sections (the top-level elements added with an
empty scalar value — the key/value line `Release date` is not a section) are
exactly the required headers, in the required order, `Machine Summary` first
and `__________ Final Summary __________` last. -/
theorem C4_section_order (a : ReportArgs) :
    ((buildDoc a).filter (fun e => e.val == YVal.str "")).map YElem.key
      = ["Machine Summary",
         "Global Problem Dimensions",
         "Processor Dimensions",
         "Local Domain Dimensions",
         "########## Problem Summary  ##########",
         "Setup Information",
         "Linear System Information",
         "Multigrid Information",
         "########## Memory Use Summary  ##########",
         "Memory Use Information",
         "########## V&V Testing Summary  ##########",
         "Spectral Convergence Tests",
         "Departure from Symmetry |x\x27Ay-y\x27Ax|/(2*||x||*||A||*||y||)/epsilon",
         "########## Iterations Summary  ##########",
         "Iteration Count Information",
         "########## Reproducibility Summary  ##########",
         "Reproducibility Information",
         "########## Performance Summary (times in sec) ##########",
         "Benchmark Time Summary",
         "Floating Point Operations Summary",
         "GB/s Summary",
         "GFLOP/s Summary",
         "User Optimization Overheads",
         "DDOT Timing Variations",
         "__________ Final Summary __________"] := rfl

/-! ## C2 — headline GFLOP/s rating -/

/-- C2: the headline rating — the value of
`GFLOP/s Summary -> Total with convergence and optimization phase overhead`
and, on a valid run, of the `HPCG result is VALID …` line — equals
`frefnops / (times[0] + numberOfCgSets*(times[7]/10 + times[9]/10)) / 1e9`,
where `frefnops` is `fnops` scaled by `refMaxIters / optMaxIters`. -/
theorem C2_headline_rating (a : ReportArgs) :
    lookupElem (gflopsSummaryKids a)
        "Total with convergence and optimization phase overhead"
      = some (YElem.mk "Total with convergence and optimization phase overhead"
          (.num (fnops a * qi a.refMaxIters / qi a.optMaxIters
            / (a.times 0 + qi a.numberOfCgSets * (a.times 7 / 10 + a.times 9 / 10))
            / 1000000000)) [])
  ∧ (isValidRun a = true →
      lookupElem (finalSummaryKids a) "HPCG result is VALID with a GFLOP/s rating of"
        = some (YElem.mk "HPCG result is VALID with a GFLOP/s rating of"
            (.num (fnops a * qi a.refMaxIters / qi a.optMaxIters
              / (a.times 0 + qi a.numberOfCgSets * (a.times 7 / 10 + a.times 9 / 10))
              / 1000000000)) [])) := by
  refine ⟨rfl, fun h => ?_⟩
  unfold finalSummaryKids
  rw [if_pos h]
  rfl

/-- Witness for C2 at concrete arguments (a valid run). -/
theorem C2_witness :
    lookupElem (finalSummaryKids argsEx) "HPCG result is VALID with a GFLOP/s rating of"
      = some (YElem.mk "HPCG result is VALID with a GFLOP/s rating of"
          (.num (fnops argsEx * qi argsEx.refMaxIters / qi argsEx.optMaxIters
            / (argsEx.times 0
               + qi argsEx.numberOfCgSets * (argsEx.times 7 / 10 + argsEx.times 9 / 10))
            / 1000000000)) []) :=
  (C2_headline_rating argsEx).2 (by decide)

/-! ## C1 — Final Summary validity verdict -/

/-- C1: the Final Summary marks the result VALID (its head line is the
`HPCG result is VALID …` entry) iff `testcg_data.count_fail == 0`,
`testsymmetry_data.count_fail == 0`, `testnorms_data.pass` and
`!global_failure`; in every other case it consists exactly of the
`HPCG result is: INVALID.` line and the `may NOT submit` line.  The Final
Summary section is the last element of the document `ReportResults` builds. -/
theorem C1_final_summary_validity (a : ReportArgs) :
    ((finalSummaryKids a).head?.map YElem.key
        = some "HPCG result is VALID with a GFLOP/s rating of"
      ↔ (a.testcg_data.count_fail = 0 ∧ a.testsymmetry_data.count_fail = 0
          ∧ a.testnorms_data.pass = true ∧ a.global_failure = 0))
  ∧ (finalSummaryKids a
        = [YElem.mk "HPCG result is" (.str "INVALID.") [],
           YElem.mk "Please review the YAML file contents"
             (.str "You may NOT submit these results for consideration.") []]
      ↔ ¬(a.testcg_data.count_fail = 0 ∧ a.testsymmetry_data.count_fail = 0
          ∧ a.testnorms_data.pass = true ∧ a.global_failure = 0))
  ∧ (buildDoc a).getLast?
      = some (YElem.mk "__________ Final Summary __________" (.str "")
          (finalSummaryKids a)) := by
  have hiff : isValidRun a = true
      ↔ (a.testcg_data.count_fail = 0 ∧ a.testsymmetry_data.count_fail = 0
          ∧ a.testnorms_data.pass = true ∧ a.global_failure = 0) := by
    simp [isValidRun, Bool.and_eq_true, beq_iff_eq, and_assoc]
  by_cases h : isValidRun a = true
  · refine ⟨?_, ?_, rfl⟩
    · rw [← hiff]
      unfold finalSummaryKids
      rw [if_pos h]
      simp [h, YElem.key]
    · rw [← hiff]
      unfold finalSummaryKids
      rw [if_pos h]
      simp [h, YElem.key]
  · refine ⟨?_, ?_, rfl⟩
    · rw [← hiff]
      unfold finalSummaryKids
      rw [if_neg h]
      simp [h, YElem.key]
    · rw [← hiff]
      unfold finalSummaryKids
      rw [if_neg h]
      simp [h, YElem.key]

/-! ## C5 — official submission time threshold -/

/-- C5: on a valid run, if `times[0] >= 1800` the Final Summary invites
upload; if `times[0] < 1800` and the quick path is selected, the report is
still built (on rank 0) and carries the QuickPath caveat line; if
`times[0] < 1800` without the quick path, the Final Summary states the
1800-second minimum. -/
theorem C5_official_time_threshold (a : ReportArgs) (hvalid : isValidRun a = true) :
    (a.times 0 ≥ minOfficialTime →
        YElem.mk "Please upload results from the YAML file contents to"
          (.str "http://hpcg-benchmark.org") [] ∈ finalSummaryKids a)
  ∧ (a.times 0 < minOfficialTime → a.quickPath = true →
        (a.A.geom.rank = 0 → (ReportResults a).emitted = some (reportDoc a))
        ∧ YElem.mk "     You have selected the QuickPath option"
            (.str "Results are official for legacy installed systems with confirmation from the HPCG Benchmark leaders.") []
          ∈ finalSummaryKids a)
  ∧ (a.times 0 < minOfficialTime → a.quickPath = false →
        YElem.mk "     Official results execution time (sec) must be at least"
          (.num minOfficialTime) [] ∈ finalSummaryKids a) := by
  refine ⟨fun ht => ?_, fun ht hq => ⟨fun hr => by simp [ReportResults, hr], ?_⟩,
    fun ht hq => ?_⟩
  · unfold finalSummaryKids
    rw [if_pos hvalid, if_pos ht]
    exact List.mem_append_right _ (by simp)
  · unfold finalSummaryKids
    rw [if_pos hvalid, if_neg (not_le.mpr ht)]
    rw [if_pos hq]
    exact List.mem_append_right _ (by simp)
  · unfold finalSummaryKids
    rw [if_pos hvalid, if_neg (not_le.mpr ht)]
    rw [if_neg (show ¬(a.quickPath = true) by simp [hq])]
    exact List.mem_append_right _ (by simp)

/-- Witness for C5 at concrete arguments: a valid quick-path run with
`times[0] = 1 < 1800` carries the QuickPath caveat line. -/
theorem C5_witness :
    YElem.mk "     You have selected the QuickPath option"
      (.str "Results are official for legacy installed systems with confirmation from the HPCG Benchmark leaders.") []
    ∈ finalSummaryKids argsEx :=
  ((C5_official_time_threshold argsEx (by decide)).2.1 (by decide) rfl).2

/-! ## C9 — `PopulateGlobalToLocalMap` -/

/-- Mixed-radix digit uniqueness over `ℤ`: if `q*b + r = q'*b + r'` with both
remainders in `[0, b)`, the quotients and remainders agree. -/
theorem digitPair_unique {b q r q' r' : ℤ} (hb : 0 < b)
    (hr : 0 ≤ r) (hrb : r < b) (hr' : 0 ≤ r') (hrb' : r' < b)
    (h : q * b + r = q' * b + r') : q = q' ∧ r = r' := by
  have hd : (q - q') * b = r' - r := by linear_combination h
  have hq : q = q' := by
    rcases lt_trichotomy q q' with hlt | heq | hgt
    · have h1 : (1 : ℤ) ≤ q' - q := by omega
      have h2 : b ≤ (q' - q) * b := le_mul_of_one_le_left hb.le h1
      have h3 : (q' - q) * b = r - r' := by linear_combination (-1 : ℤ) * h
      linarith
    · exact heq
    · have h1 : (1 : ℤ) ≤ q - q' := by omega
      have h2 : b ≤ (q - q') * b := le_mul_of_one_le_left hb.le h1
      linarith
  subst hq
  exact ⟨rfl, by linarith⟩

/-- The digit `ip*n + i` of a process at in-range coordinate `ip` lies in
`[0, n*np)`. -/
theorem digit_bounds {ip np n : ℤ} (hip0 : 0 ≤ ip) (hip : ip < np) (hn : 0 < n)
    {i : Nat} (hi : (i : ℤ) < n) :
    0 ≤ ip * n + (i : ℤ) ∧ ip * n + (i : ℤ) < n * np := by
  constructor
  · have h0 : (0 : ℤ) ≤ (i : ℤ) := Int.natCast_nonneg i
    have h1 : (0 : ℤ) ≤ ip * n := mul_nonneg hip0 hn.le
    linarith
  · have h1 : ip ≤ np - 1 := by omega
    have h2 : ip * n ≤ (np - 1) * n := mul_le_mul_of_nonneg_right h1 hn.le
    have h3 : (np - 1) * n + n = n * np := by ring
    linarith

/-- The global-row formula of `PopulateGlobalToLocalMap` is injective over the
local coordinates of one rank (given the geometry invariants
`0 ≤ ipx < npx`, `0 ≤ ipy < npy`). -/
theorem globalRow_inj (g : Geometry)
    (hipx0 : 0 ≤ g.ipx) (hipx : g.ipx < g.npx)
    (hipy0 : 0 ≤ g.ipy) (hipy : g.ipy < g.npy)
    {ix iy iz ix' iy' iz' : Nat}
    (hx : ix < g.nx.toNat) (hy : iy < g.ny.toNat)
    (hx' : ix' < g.nx.toNat) (hy' : iy' < g.ny.toNat)
    (h : globalRow g ix iy iz = globalRow g ix' iy' iz') :
    ix = ix' ∧ iy = iy' ∧ iz = iz' := by
  have hnx : 0 < g.nx := by omega
  have hny : 0 < g.ny := by omega
  have hnpx : 0 < g.npx := by omega
  have hnpy : 0 < g.npy := by omega
  have hxi : (ix : ℤ) < g.nx := by omega
  have hyi : (iy : ℤ) < g.ny := by omega
  have hxi' : (ix' : ℤ) < g.nx := by omega
  have hyi' : (iy' : ℤ) < g.ny := by omega
  have hgnx : 0 < g.nx * g.npx := mul_pos hnx hnpx
  have hgny : 0 < g.ny * g.npy := mul_pos hny hnpy
  obtain ⟨bx0, bxlt⟩ := digit_bounds hipx0 hipx hnx hxi
  obtain ⟨bx0', bxlt'⟩ := digit_bounds hipx0 hipx hnx hxi'
  obtain ⟨by0, bylt⟩ := digit_bounds hipy0 hipy hny hyi
  obtain ⟨by0', bylt'⟩ := digit_bounds hipy0 hipy hny hyi'
  have h1 : ((g.ipz * g.nz + (iz : ℤ)) * (g.ny * g.npy) + (g.ipy * g.ny + (iy : ℤ)))
              * (g.nx * g.npx) + (g.ipx * g.nx + (ix : ℤ))
          = ((g.ipz * g.nz + (iz' : ℤ)) * (g.ny * g.npy) + (g.ipy * g.ny + (iy' : ℤ)))
              * (g.nx * g.npx) + (g.ipx * g.nx + (ix' : ℤ)) := by
    have h0 := h
    unfold globalRow at h0
    linear_combination h0
  obtain ⟨hQ, hx2⟩ := digitPair_unique hgnx bx0 bxlt bx0' bxlt' h1
  obtain ⟨hQ2, hy2⟩ := digitPair_unique hgny by0 bylt by0' bylt' hQ
  refine ⟨?_, ?_, ?_⟩
  · have hc : (ix : ℤ) = ix' := by linarith
    exact_mod_cast hc
  · have hc : (iy : ℤ) = iy' := by linarith
    exact_mod_cast hc
  · have hc : (iz : ℤ) = iz' := by linarith
    exact_mod_cast hc

/-- Every in-range local coordinate contributes its (global,local) pair to
`g2lEntries`. -/
theorem g2l_mem (g : Geometry) {ix iy iz : Nat} (hx : ix < g.nx.toNat)
    (hy : iy < g.ny.toNat) (hz : iz < g.nz.toNat) :
    (globalRow g ix iy iz, localRow g ix iy iz) ∈ g2lEntries g := by
  unfold g2lEntries
  refine List.mem_flatMap.2 ⟨iz, List.mem_range.2 hz, ?_⟩
  refine List.mem_flatMap.2 ⟨iy, List.mem_range.2 hy, ?_⟩
  exact List.mem_map.2 ⟨ix, List.mem_range.2 hx, rfl⟩

/-- The keys inserted by `PopulateGlobalToLocalMap` are pairwise distinct. -/
theorem g2lKeys_nodup (g : Geometry)
    (hipx0 : 0 ≤ g.ipx) (hipx : g.ipx < g.npx)
    (hipy0 : 0 ≤ g.ipy) (hipy : g.ipy < g.npy) :
    ((g2lEntries g).map Prod.fst).Nodup := by
  have hkeys : (g2lEntries g).map Prod.fst
      = (List.range g.nz.toNat).flatMap (fun iz =>
          (List.range g.ny.toNat).flatMap (fun iy =>
            (List.range g.nx.toNat).map (fun ix => globalRow g ix iy iz))) := by
    simp only [g2lEntries, List.map_flatMap, List.map_map]
    rfl
  rw [hkeys]
  refine List.nodup_flatMap.2 ⟨?_, ?_⟩
  · intro iz hiz
    refine List.nodup_flatMap.2 ⟨?_, ?_⟩
    · intro iy hiy
      refine List.Nodup.map_on ?_ (List.nodup_range _)
      intro x hxm y hym hxy
      exact (globalRow_inj g hipx0 hipx hipy0 hipy (List.mem_range.1 hxm)
        (List.mem_range.1 hiy) (List.mem_range.1 hym) (List.mem_range.1 hiy) hxy).1
    · refine List.Nodup.pairwise_of_forall_ne (List.nodup_range _) ?_
      intro iy1 h1 iy2 h2 hne k hk1 hk2
      obtain ⟨x1, hx1, rfl⟩ := List.mem_map.1 hk1
      obtain ⟨x2, hx2, heq⟩ := List.mem_map.1 hk2
      exact hne ((globalRow_inj g hipx0 hipx hipy0 hipy (List.mem_range.1 hx1)
        (List.mem_range.1 h1) (List.mem_range.1 hx2) (List.mem_range.1 h2)
        heq.symm).2.1)
  · refine List.Nodup.pairwise_of_forall_ne (List.nodup_range _) ?_
    intro iz1 h1 iz2 h2 hne k hk1 hk2
    obtain ⟨iy1, hiy1, hk1'⟩ := List.mem_flatMap.1 hk1
    obtain ⟨iy2, hiy2, hk2'⟩ := List.mem_flatMap.1 hk2
    obtain ⟨x1, hx1, rfl⟩ := List.mem_map.1 hk1'
    obtain ⟨x2, hx2, heq⟩ := List.mem_map.1 hk2'
    exact hne ((globalRow_inj g hipx0 hipx hipy0 hipy (List.mem_range.1 hx1)
      (List.mem_range.1 hiy1) (List.mem_range.1 hx2) (List.mem_range.1 hiy2)
      heq.symm).2.2)

/-- Length of the entry list: one entry per local grid point. -/
theorem g2lEntries_length (g : Geometry) :
    (g2lEntries g).length = g.nz.toNat * (g.ny.toNat * g.nx.toNat) := by
  unfold g2lEntries
  rw [List.length_flatMap]
  simp only [Function.comp_def]
  have hinner : ∀ iz : Nat,
      ((List.range g.ny.toNat).flatMap (fun iy =>
        (List.range g.nx.toNat).map (fun ix =>
          (globalRow g ix iy iz, localRow g ix iy iz)))).length
      = g.ny.toNat * g.nx.toNat := by
    intro iz
    rw [List.length_flatMap]
    simp only [Function.comp_def]
    have hc : (List.range g.ny.toNat).map (fun iy =>
        ((List.range g.nx.toNat).map (fun ix =>
          (globalRow g ix iy iz, localRow g ix iy iz))).length)
        = (List.range g.ny.toNat).map (fun _ => g.nx.toNat) := by
      refine List.map_congr_left ?_
      intro iy _
      rw [List.length_map, List.length_range]
    rw [hc, List.map_const', List.length_range, List.sum_replicate, smul_eq_mul]
  have hc2 : (List.range g.nz.toNat).map (fun iz =>
      ((List.range g.ny.toNat).flatMap (fun iy =>
        (List.range g.nx.toNat).map (fun ix =>
          (globalRow g ix iy iz, localRow g ix iy iz)))).length)
      = (List.range g.nz.toNat).map (fun _ => g.ny.toNat * g.nx.toNat) := by
    refine List.map_congr_left ?_
    intro iz _
    exact hinner iz
  rw [hc2, List.map_const', List.length_range, List.sum_replicate, smul_eq_mul]

/-- `List.lookup` on a list with pairwise-distinct keys finds any member
pair. -/
theorem lookup_eq_of_nodup_keys {l : List (Int × Int)}
    (hn : (l.map Prod.fst).Nodup) {k v : Int} (hm : (k, v) ∈ l) :
    l.lookup k = some v := by
  induction l with
  | nil => cases hm
  | cons p t ih =>
    obtain ⟨k', v'⟩ := p
    rcases List.mem_cons.1 hm with heq | htail
    · cases heq
      simp [List.lookup]
    · have hmem : k ∈ t.map Prod.fst := List.mem_map.2 ⟨(k, v), htail, rfl⟩
      have hne : k ≠ k' := by
        rintro rfl
        exact (List.nodup_cons.1 hn).1 hmem
      have hbeq : (k == k') = false := beq_eq_false_iff_ne.2 hne
      rw [show List.lookup k ((k', v') :: t) = List.lookup k t by simp [List.lookup, hbeq]]
      exact ih (List.nodup_cons.1 hn).2 htail

/-- C9: after `PopulateGlobalToLocalMap`, the map holds exactly `nx*ny*nz`
entries (its keys are pairwise distinct), it sends the global row
`(ipz*nz+iz)*(nx*npx)*(ny*npy) + (ipy*ny+iy)*(nx*npx) + (ipx*nx+ix)` of every
in-range local coordinate to the local row `iz*nx*ny + iy*nx + ix`, and the
global-row formula is injective over the rank's local coordinates. -/
theorem C9_populate_global_to_local (g : Geometry)
    (hipx0 : 0 ≤ g.ipx) (hipx : g.ipx < g.npx)
    (hipy0 : 0 ≤ g.ipy) (hipy : g.ipy < g.npy)
    (hnx : 0 < g.nx) (hny : 0 < g.ny) (hnz : 0 < g.nz) :
    (g2lEntries g).length = (g.nx * g.ny * g.nz).toNat
  ∧ ((g2lEntries g).map Prod.fst).Nodup
  ∧ (∀ ix iy iz : Nat, ix < g.nx.toNat → iy < g.ny.toNat → iz < g.nz.toNat →
      (g2lEntries g).lookup (globalRow g ix iy iz) = some (localRow g ix iy iz))
  ∧ (∀ ix iy iz ix' iy' iz' : Nat,
      ix < g.nx.toNat → iy < g.ny.toNat → ix' < g.nx.toNat → iy' < g.ny.toNat →
      globalRow g ix iy iz = globalRow g ix' iy' iz' →
      ix = ix' ∧ iy = iy' ∧ iz = iz') := by
  refine ⟨?_, g2lKeys_nodup g hipx0 hipx hipy0 hipy, ?_, ?_⟩
  · obtain ⟨p, hp⟩ := Int.eq_ofNat_of_zero_le hnx.le
    obtain ⟨q, hq⟩ := Int.eq_ofNat_of_zero_le hny.le
    obtain ⟨r, hr⟩ := Int.eq_ofNat_of_zero_le hnz.le
    rw [g2lEntries_length, hp, hq, hr, ← Nat.cast_mul, ← Nat.cast_mul,
      Int.toNat_natCast, Int.toNat_natCast, Int.toNat_natCast, Int.toNat_natCast]
    ring
  · intro ix iy iz hxm hym hzm
    exact lookup_eq_of_nodup_keys (g2lKeys_nodup g hipx0 hipx hipy0 hipy)
      (g2l_mem g hxm hym hzm)
  · intro ix iy iz ix' iy' iz' hxm hym hxm' hym' heq
    exact globalRow_inj g hipx0 hipx hipy0 hipy hxm hym hxm' hym' heq

/-- Witness for C9 at a concrete geometry: the rank at (1,1,1) of a 2x2x2
process grid with 2x2x2 local blocks. -/
theorem C9_witness :
    (g2lEntries gEx).lookup (globalRow gEx 1 0 1) = some (localRow gEx 1 0 1) :=
  (C9_populate_global_to_local gEx (by decide) (by decide) (by decide) (by decide)
    (by decide) (by decide) (by decide)).2.2.1 1 0 1 (by decide) (by decide) (by decide)

end CODY
